import Mathlib

/-!
Verification of the MDCTextfieldFoundation controller
(packages/mdc-textfield/foundation.js and the component adapter in
packages/mdc-textfield/index.js).

The foundation is embedded shallowly: the DOM surface visible through the
adapter (class lists, attribute lists, listener lists) and the calls made to
the label and input sub-foundations are carried in an explicit state record,
and every foundation method becomes a pure state transformer translated
line by line from the source.
-/

namespace MDCTextfield

/-! ### Class and attribute name constants -/

/-- Modelled from the spec: the constants module of mdc-textfield is not
among the provided sources.  The spec lists the host-visible CSS contract as
the class names upgraded, focused, disabled, invalid, bottom-line-active,
helptext-persistent, helptext-validation-message and text-field-icon, plus
an aria-hidden attribute name and a role attribute name.  Only the identity
and pairwise distinctness of these strings matter to the foundation logic,
so the spec words are used verbatim as the string values. -/
def UPGRADED : String := "upgraded"

/-- Modelled from the spec: css class added on focus. -/
def FOCUSED : String := "focused"

/-- Modelled from the spec: css class toggled by setDisabled. -/
def DISABLED : String := "disabled"

/-- Modelled from the spec: css class toggled by the validity procedure. -/
def INVALID : String := "invalid"

/-- Modelled from the spec: css class on the bottom-line while active. -/
def BOTTOM_LINE_ACTIVE : String := "bottom-line-active"

/-- Modelled from the spec: css class marking persistent help text. -/
def HELPTEXT_PERSISTENT : String := "helptext-persistent"

/-- Modelled from the spec: css class marking help text used as a
validation message. -/
def HELPTEXT_VALIDATION_MSG : String := "helptext-validation-message"

/-- Modelled from the spec: css class marking the icon element. -/
def TEXT_FIELD_ICON : String := "text-field-icon"

/-- Modelled from the spec: the aria-hidden attribute name. -/
def ARIA_HIDDEN : String := "aria-hidden"

/-- Modelled from the spec: the role attribute name. -/
def ROLE : String := "role"

/-- Modelled from the spec: the input sub-foundation event type used for
focus registration (MDCTextfieldInputFoundation.strings.FOCUS_EVENT; the
input module is not among the provided sources, the spec gives the event
set as focus, blur and a pointerdown-equivalent "pressed"). -/
def FOCUS_EVENT : String := "focus"

/-- Modelled from the spec: the input sub-foundation blur event type. -/
def BLUR_EVENT : String := "blur"

/-- Modelled from the spec: the input sub-foundation pressed event type. -/
def PRESSED_EVENT : String := "pressed"

/-! ### Data model -/

/-- Observable surface of the input sub-foundation.  Modelled from the
spec: the input foundation module is not among the provided sources; the
spec gives its capability surface as getValue(), isBadInput(),
checkValidity(), a disabled flag and setDisabled(bool).  The field
checkValidityResult is the value the native checkValidity() call would
return in the current host state. -/
structure InputState where
  value : String
  badInput : Bool
  disabled : Bool
  checkValidityResult : Bool
deriving DecidableEq

/-- A call made by the foundation on the label sub-foundation (the label
module is opaque to the foundation; only the call trace is observable). -/
inductive LabelCall where
  | floatLabel
  | deactivateFocusCall (hasValidInput : Bool)
  | changeValidityCall (isValid : Bool)
deriving DecidableEq

/-- A DOM event as seen by handleTextFieldInteraction_: its type, the class
list of its target, and the optional key / keyCode properties (absent
properties of a JS event read as undefined, hence Option). -/
structure Evt where
  type : String
  targetClasses : List String
  key : Option String
  keyCode : Option Nat
deriving DecidableEq

/-- The full observable state of one MDCTextfieldFoundation instance wired
to its host: the class lists and attribute lists reachable through the
adapter, the input sub-foundation state, the private fields of the
foundation, and the call traces to the label and input sub-foundations.
receivedUserInput_ and isFocused_ are Option Bool because in the source
neither field is initialised in the constructor (a JS field that was never
assigned reads as undefined, modelled as none); isFocused_ is never
assigned anywhere in foundation.js. -/
structure TFState where
  rootClasses : List String
  bottomLineClasses : List String
  helptextClasses : List String
  helptextAttrs : List (String × String)
  iconAttrs : List (String × String)
  input : InputState
  useCustomValidityChecking_ : Bool
  receivedUserInput_ : Option Bool
  isFocused_ : Option Bool
  labelCalls : List LabelCall
  notifyIconActionCount : Nat
  inputSetDisabledCalls : List Bool
deriving DecidableEq

/-! ### DOM primitive semantics -/

/-- classList.add: idempotent append. -/
def addClassList (cs : List String) (c : String) : List String :=
  if c ∈ cs then cs else cs ++ [c]

/-- classList.remove: drop every occurrence. -/
def removeClassList (cs : List String) (c : String) : List String :=
  cs.filter (fun x => x != c)

/-- setAttribute: replace any binding for the key. -/
def setAttrList (attrs : List (String × String)) (k v : String) :
    List (String × String) :=
  attrs.filter (fun p => p.1 != k) ++ [(k, v)]

/-- removeAttribute: drop every binding for the key. -/
def removeAttrList (attrs : List (String × String)) (k : String) :
    List (String × String) :=
  attrs.filter (fun p => p.1 != k)

/-- getAttribute: first binding for the key, if any. -/
def getAttr : List (String × String) → String → Option String
  | [], _ => none
  | p :: rest, k => if p.1 == k then some p.2 else getAttr rest k

/-- JS truthiness of a possibly-undefined boolean field (undefined is
falsy). -/
def truthyOptBool : Option Bool → Bool
  | none => false
  | some b => b

/-! ### Foundation methods (foundation.js, translated line by line) -/

/-- showHelptext_ (foundation.js lines 176 to 179): removes the aria-hidden
attribute from the help text. -/
def showHelptext_ (s : TFState) : TFState :=
  { s with helptextAttrs := removeAttrList s.helptextAttrs ARIA_HIDDEN }

/-- hideHelptext_ (foundation.js lines 260 to 263): sets aria-hidden to
"true" on the help text. -/
def hideHelptext_ (s : TFState) : TFState :=
  { s with helptextAttrs := setAttrList s.helptextAttrs ARIA_HIDDEN "true" }

/-- updateHelptext_ (foundation.js lines 237 to 254): sets role to "alert"
when the help text is a validation message and the field is invalid,
otherwise removes role; then hides the help text unless it is persistent or
a validation message needing display. -/
def updateHelptext_ (s : TFState) (isValid : Bool) : TFState :=
  let helptextIsPersistent := s.helptextClasses.contains HELPTEXT_PERSISTENT
  let helptextIsValidationMsg := s.helptextClasses.contains HELPTEXT_VALIDATION_MSG
  let validationMsgNeedsDisplay := helptextIsValidationMsg && ! isValid
  let s1 :=
    if validationMsgNeedsDisplay then
      { s with helptextAttrs := setAttrList s.helptextAttrs ROLE "alert" }
    else
      { s with helptextAttrs := removeAttrList s.helptextAttrs ROLE }
  if helptextIsPersistent || validationMsgNeedsDisplay then s1 else hideHelptext_ s1

/-- changeValidity_ (foundation.js lines 221 to 230): notifies the label of
the new validity, toggles the invalid class, then updates the help text. -/
def changeValidity_ (s : TFState) (isValid : Bool) : TFState :=
  let s1 := { s with labelCalls := s.labelCalls ++ [LabelCall.changeValidityCall isValid] }
  let s2 :=
    if isValid then { s1 with rootClasses := removeClassList s1.rootClasses INVALID }
    else { s1 with rootClasses := addClassList s1.rootClasses INVALID }
  updateHelptext_ s2 isValid

/-- transitionEnd_ (foundation.js lines 187 to 196): removes the
bottom-line active class when the transition property is opacity and
this.isFocused_ is falsy.  isFocused_ is never assigned in foundation.js,
so in the source the second conjunct always holds. -/
def transitionEnd_ (s : TFState) (propertyName : String) : TFState :=
  if propertyName == "opacity" && ! truthyOptBool s.isFocused_ then
    { s with bottomLineClasses := removeClassList s.bottomLineClasses BOTTOM_LINE_ACTIVE }
  else s

/-- activateFocus_ (foundation.js lines 148 to 154): adds the focused class,
adds the bottom-line active class, floats the label, shows the help text. -/
def activateFocus_ (s : TFState) : TFState :=
  let s1 := { s with rootClasses := addClassList s.rootClasses FOCUSED }
  let s2 := { s1 with bottomLineClasses := addClassList s1.bottomLineClasses BOTTOM_LINE_ACTIVE }
  let s3 := { s2 with labelCalls := s2.labelCalls ++ [LabelCall.floatLabel] }
  showHelptext_ s3

/-- deactivateFocus_ (foundation.js lines 202 to 214): removes the focused
class, calls label.deactivateFocus with hasValidInput computed as
(value is empty) and (not bad input), and, only when custom validity
checking is off, recomputes validity from the native checkValidity(). -/
def deactivateFocus_ (s : TFState) : TFState :=
  let s1 := { s with rootClasses := removeClassList s.rootClasses FOCUSED }
  let hasValidInput := (s1.input.value == "") && (! s1.input.badInput)
  let s2 := { s1 with labelCalls := s1.labelCalls ++ [LabelCall.deactivateFocusCall hasValidInput] }
  if ! s2.useCustomValidityChecking_ then
    changeValidity_ s2 s2.input.checkValidityResult
  else s2

/-- handleTextFieldInteraction_ (foundation.js lines 127 to 142): early
return when the input is disabled; otherwise latches receivedUserInput_ and
notifies the icon action when the target carries the icon class and the
event is a click, an Enter key, or key code 13. -/
def handleTextFieldInteraction_ (s : TFState) (evt : Evt) : TFState :=
  if s.input.disabled then s
  else
    let s1 := { s with receivedUserInput_ := some true }
    let targetIsIcon := evt.targetClasses.contains TEXT_FIELD_ICON
    let eventTriggersNotification :=
      (evt.type == "click") || (evt.key == some "Enter") || (evt.keyCode == some 13)
    if targetIsIcon && eventTriggersNotification then
      { s1 with notifyIconActionCount := s1.notifyIconActionCount + 1 }
    else s1

/-- setDisabled (foundation.js lines 268 to 278): forwards to the input
sub-foundation setDisabled (recorded in the trace; per the spec the input
controller maintains its own disabled flag, so the flag is updated too),
toggles the disabled class and sets the icon tabindex. -/
def setDisabled (s : TFState) (disabled : Bool) : TFState :=
  let s1 := { s with
    inputSetDisabledCalls := s.inputSetDisabledCalls ++ [disabled],
    input := { s.input with disabled := disabled } }
  if disabled then
    let s2 := { s1 with rootClasses := addClassList s1.rootClasses DISABLED }
    { s2 with iconAttrs := setAttrList s2.iconAttrs "tabindex" "-1" }
  else
    let s2 := { s1 with rootClasses := removeClassList s1.rootClasses DISABLED }
    { s2 with iconAttrs := setAttrList s2.iconAttrs "tabindex" "0" }

/-- setValid (foundation.js lines 283 to 286): permanently enables custom
validity checking and runs the validity-change procedure. -/
def setValid (s : TFState) (isValid : Bool) : TFState :=
  changeValidity_ { s with useCustomValidityChecking_ := true } isValid

/-! ### Event sequences -/

/-- One externally driven step: the input focus, blur and transition-end
handlers wired by init(), an interaction event on the text field, the two
public setters, and an environment step changing the host input state
(value edits, native validity changes). -/
inductive Ev where
  | focus
  | blur
  | transitionEndEvt (propertyName : String)
  | interact (evt : Evt)
  | setValidCall (isValid : Bool)
  | setDisabledCall (disabled : Bool)
  | setInputEnv (i : InputState)
deriving DecidableEq

/-- Whether the step is a setValid call. -/
def Ev.isSetValid : Ev → Bool
  | Ev.setValidCall _ => true
  | _ => false

/-- Dispatch of one step to the corresponding foundation method. -/
def step (s : TFState) : Ev → TFState
  | Ev.focus => activateFocus_ s
  | Ev.blur => deactivateFocus_ s
  | Ev.transitionEndEvt p => transitionEnd_ s p
  | Ev.interact e => handleTextFieldInteraction_ s e
  | Ev.setValidCall b => setValid s b
  | Ev.setDisabledCall b => setDisabled s b
  | Ev.setInputEnv i => { s with input := i }

/-- Run a sequence of steps. -/
def runEvents (s : TFState) (evs : List Ev) : TFState :=
  evs.foldl step s

/-- The state of a freshly constructed foundation on a pristine host:
no classes, no attributes, an empty enabled input, and the private fields
as the constructor leaves them (useCustomValidityChecking_ false,
receivedUserInput_ and isFocused_ unassigned). -/
def initialState : TFState :=
  { rootClasses := []
    bottomLineClasses := []
    helptextClasses := []
    helptextAttrs := []
    iconAttrs := []
    input := { value := "", badInput := false, disabled := false, checkValidityResult := true }
    useCustomValidityChecking_ := false
    receivedUserInput_ := none
    isFocused_ := none
    labelCalls := []
    notifyIconActionCount := 0
    inputSetDisabledCalls := [] }

/-! ### init and destroy as adapter call traces -/

/-- The five handler values stored once in the constructor (foundation.js
lines 77 to 87); handler identity in JS is closure reference identity,
modelled by this enumeration. -/
inductive Handler where
  | inputFocusHandler
  | inputBlurHandler
  | setPointerXOffset
  | textFieldInteractionHandler
  | transitionEndHandler
deriving DecidableEq

/-- An adapter call emitted by init() or destroy() (plus the label
floatLabel call init makes through getLabelFoundation). -/
inductive AdapterCall where
  | addClass (c : String)
  | removeClass (c : String)
  | floatLabel
  | registerInputInteractionHandler (evtType : String) (h : Handler)
  | deregisterInputInteractionHandler (evtType : String) (h : Handler)
  | registerTextFieldInteractionHandler (evtType : String) (h : Handler)
  | deregisterTextFieldInteractionHandler (evtType : String) (h : Handler)
  | registerTransitionEndHandler (h : Handler)
  | deregisterTransitionEndHandler (h : Handler)
deriving DecidableEq

/-- init() (foundation.js lines 89 to 106) as its adapter call trace, given
the string the input getValue() returns: adds the upgraded class, floats
the label when the value is truthy (a JS string is truthy iff non-empty),
then registers the focus, blur and pressed input handlers, the click and
keydown text-field handlers, and the transition-end handler, each with the
constructor-stored handler value. -/
def initCalls (inputValue : String) : List AdapterCall :=
  [AdapterCall.addClass UPGRADED]
  ++ (if inputValue = "" then [] else [AdapterCall.floatLabel])
  ++ [AdapterCall.registerInputInteractionHandler FOCUS_EVENT Handler.inputFocusHandler,
      AdapterCall.registerInputInteractionHandler BLUR_EVENT Handler.inputBlurHandler,
      AdapterCall.registerInputInteractionHandler PRESSED_EVENT Handler.setPointerXOffset,
      AdapterCall.registerTextFieldInteractionHandler "click" Handler.textFieldInteractionHandler,
      AdapterCall.registerTextFieldInteractionHandler "keydown" Handler.textFieldInteractionHandler,
      AdapterCall.registerTransitionEndHandler Handler.transitionEndHandler]

/-- destroy() (foundation.js lines 108 to 120) as its adapter call trace:
removes the upgraded class and deregisters every handler with the same
constructor-stored handler value used at registration. -/
def destroyCalls : List AdapterCall :=
  [AdapterCall.removeClass UPGRADED,
   AdapterCall.deregisterInputInteractionHandler FOCUS_EVENT Handler.inputFocusHandler,
   AdapterCall.deregisterInputInteractionHandler BLUR_EVENT Handler.inputBlurHandler,
   AdapterCall.deregisterInputInteractionHandler PRESSED_EVENT Handler.setPointerXOffset,
   AdapterCall.deregisterTextFieldInteractionHandler "click" Handler.textFieldInteractionHandler,
   AdapterCall.deregisterTextFieldInteractionHandler "keydown" Handler.textFieldInteractionHandler,
   AdapterCall.deregisterTransitionEndHandler Handler.transitionEndHandler]

/-! ### The component adapter of index.js -/

/-- DOM listener and class state of the host component: listeners attached
to the root element and to the input element, the root class list, and the
number of label float calls. -/
structure DomState where
  rootListeners : List (String × Handler)
  inputListeners : List (String × Handler)
  rootClasses : List String
  labelFloatCount : Nat
deriving DecidableEq

/-- DOM addEventListener: attaching an already attached (type, listener)
pair is a no-op. -/
def addEventListener (l : List (String × Handler)) (e : String) (h : Handler) :
    List (String × Handler) :=
  if (e, h) ∈ l then l else l ++ [(e, h)]

/-- DOM removeEventListener: detaches the (type, listener) pair. -/
def removeEventListener (l : List (String × Handler)) (e : String) (h : Handler) :
    List (String × Handler) :=
  l.filter (fun p => p != (e, h))

/-- Interpretation of one adapter call through the component adapter built
in getDefaultFoundation (index.js lines 132 to 158): class calls go to the
root class list; registerTextFieldInteractionHandler and its deregister go
to root addEventListener / removeEventListener; BOTH
registerInputInteractionHandler and deregisterInputInteractionHandler are
wired to this.input_.listen (index.js lines 140 and 141), i.e. to
addEventListener on the input; registerTransitionEndHandler and its
deregister are absent from the component adapter object, so they fall back
to the defaultAdapter no-ops (foundation.js lines 59 and 60). -/
def componentApply (d : DomState) : AdapterCall → DomState
  | AdapterCall.addClass c => { d with rootClasses := addClassList d.rootClasses c }
  | AdapterCall.removeClass c => { d with rootClasses := removeClassList d.rootClasses c }
  | AdapterCall.floatLabel => { d with labelFloatCount := d.labelFloatCount + 1 }
  | AdapterCall.registerInputInteractionHandler e h =>
      { d with inputListeners := addEventListener d.inputListeners e h }
  | AdapterCall.deregisterInputInteractionHandler e h =>
      { d with inputListeners := addEventListener d.inputListeners e h }
  | AdapterCall.registerTextFieldInteractionHandler e h =>
      { d with rootListeners := addEventListener d.rootListeners e h }
  | AdapterCall.deregisterTextFieldInteractionHandler e h =>
      { d with rootListeners := removeEventListener d.rootListeners e h }
  | AdapterCall.registerTransitionEndHandler _ => d
  | AdapterCall.deregisterTransitionEndHandler _ => d

/-- A host with nothing attached yet. -/
def emptyDom : DomState :=
  { rootListeners := [], inputListeners := [], rootClasses := [], labelFloatCount := 0 }

/-! ### The default adapter (foundation.js lines 45 to 67) -/

/-- The exact member set of the object literal returned by the static
defaultAdapter getter (foundation.js lines 46 to 66); note that
registerInputInteractionHandler and deregisterInputInteractionHandler are
not among them. -/
def defaultAdapterKeys : List String :=
  ["addClass", "removeClass", "setIconAttr", "eventTargetHasClass",
   "registerTextFieldInteractionHandler", "deregisterTextFieldInteractionHandler",
   "notifyIconAction", "addClassToBottomLine", "removeClassFromBottomLine",
   "addClassToHelptext", "removeClassFromHelptext", "helptextHasClass",
   "registerTransitionEndHandler", "deregisterTransitionEndHandler",
   "setBottomLineAttr", "setHelptextAttr", "removeHelptextAttr",
   "getInputFoundation", "getLabelFoundation"]

/-- The result of the default adapter getInputFoundation, which is the
arrow function with an empty body (foundation.js line 64) and therefore
returns undefined, modelled as none. -/
def defaultGetInputFoundation : Option InputState := none

/-- init() (foundation.js lines 89 to 106) run against an adapter described
by its member-name set, the value its getInputFoundation returns (none for
undefined) and whether its getLabelFoundation returns a usable label.
Following JS semantics, calling a missing member raises a TypeError, and
calling a method of an undefined sub-foundation raises a TypeError; the
first failure aborts init. -/
def initRun (keys : List String) (inputF : Option InputState)
    (labelPresent : Bool) : Except String Unit := do
  if ! keys.contains "addClass" then
    throw "TypeError: addClass is not a function"
  if ! keys.contains "getInputFoundation" then
    throw "TypeError: getInputFoundation is not a function"
  match inputF with
  | none => throw "TypeError: cannot read getValue of undefined"
  | some input =>
    if input.value != "" then
      if ! keys.contains "getLabelFoundation" then
        throw "TypeError: getLabelFoundation is not a function"
      if ! labelPresent then
        throw "TypeError: cannot read floatLabel of undefined"
    if ! keys.contains "registerInputInteractionHandler" then
      throw "TypeError: registerInputInteractionHandler is not a function"
    if ! keys.contains "registerTextFieldInteractionHandler" then
      throw "TypeError: registerTextFieldInteractionHandler is not a function"
    if ! keys.contains "registerTransitionEndHandler" then
      throw "TypeError: registerTransitionEndHandler is not a function"
    return ()

/-! ### Helper lemmas about the DOM primitives -/

lemma mem_addClassList_self (cs : List String) (c : String) :
    c ∈ addClassList cs c := by
  unfold addClassList
  split
  · assumption
  · exact List.mem_append_right _ (List.mem_singleton.mpr rfl)

lemma mem_addClassList_of_mem {a : String} {cs : List String} (c : String)
    (h : a ∈ cs) : a ∈ addClassList cs c := by
  unfold addClassList
  split
  · exact h
  · exact List.mem_append_left _ h

lemma not_mem_addClassList {a : String} {cs : List String} {c : String}
    (h : a ∉ cs) (hne : a ≠ c) : a ∉ addClassList cs c := by
  unfold addClassList
  split
  · exact h
  · intro hmem
    rcases List.mem_append.mp hmem with h1 | h1
    · exact h h1
    · exact hne (List.mem_singleton.mp h1)

lemma mem_removeClassList {a : String} {cs : List String} {c : String}
    (h : a ∈ cs) (hne : a ≠ c) : a ∈ removeClassList cs c := by
  unfold removeClassList
  exact List.mem_filter.mpr ⟨h, bne_iff_ne.mpr hne⟩

lemma not_mem_removeClassList_self (cs : List String) (c : String) :
    c ∉ removeClassList cs c := by
  unfold removeClassList
  intro hmem
  have h2 := (List.mem_filter.mp hmem).2
  simp at h2

lemma not_mem_removeClassList_of {a : String} {cs : List String} (c : String)
    (h : a ∉ cs) : a ∉ removeClassList cs c := by
  unfold removeClassList
  intro hmem
  exact h (List.mem_filter.mp hmem).1

lemma getAttr_append (l1 l2 : List (String × String)) (k : String) :
    getAttr (l1 ++ l2) k =
      match getAttr l1 k with
      | some v => some v
      | none => getAttr l2 k := by
  induction l1 with
  | nil => simp [getAttr]
  | cons p rest ih =>
      simp only [List.cons_append, getAttr]
      cases hpk : (p.1 == k) <;> simp [hpk, ih]

lemma getAttr_filter_self (attrs : List (String × String)) (k : String) :
    getAttr (attrs.filter (fun p => p.1 != k)) k = none := by
  induction attrs with
  | nil => rfl
  | cons p rest ih =>
      cases hpk : (p.1 == k)
      · have hbk : (p.1 != k) = true := by simp [bne, hpk]
        simp [List.filter_cons, hbk, getAttr, hpk, ih]
      · have hbk : (p.1 != k) = false := by simp [bne, hpk]
        simp [List.filter_cons, hbk, ih]

lemma getAttr_filter_other (attrs : List (String × String)) {k k2 : String}
    (h : k2 ≠ k) :
    getAttr (attrs.filter (fun p => p.1 != k)) k2 = getAttr attrs k2 := by
  induction attrs with
  | nil => rfl
  | cons p rest ih =>
      cases hpk : (p.1 == k)
      · have hbk : (p.1 != k) = true := by simp [bne, hpk]
        cases hp2 : (p.1 == k2) <;>
          simp [List.filter_cons, hbk, getAttr, hp2, ih]
      · have hbk : (p.1 != k) = false := by simp [bne, hpk]
        have hpeq : p.1 = k := eq_of_beq hpk
        have hp2 : (p.1 == k2) = false := by
          apply beq_eq_false_iff_ne.mpr
          rw [hpeq]
          exact fun hh => h hh.symm
        simp [List.filter_cons, hbk, getAttr, hp2, ih]

lemma getAttr_setAttrList_self (attrs : List (String × String)) (k v : String) :
    getAttr (setAttrList attrs k v) k = some v := by
  unfold setAttrList
  rw [getAttr_append, getAttr_filter_self]
  simp [getAttr]

lemma getAttr_setAttrList_other (attrs : List (String × String)) {k k2 : String}
    (v : String) (h : k2 ≠ k) :
    getAttr (setAttrList attrs k v) k2 = getAttr attrs k2 := by
  unfold setAttrList
  rw [getAttr_append, getAttr_filter_other attrs h]
  cases hres : getAttr attrs k2 <;>
    simp [getAttr, beq_eq_false_iff_ne.mpr (Ne.symm h)]

lemma getAttr_removeAttrList_self (attrs : List (String × String)) (k : String) :
    getAttr (removeAttrList attrs k) k = none := by
  unfold removeAttrList
  exact getAttr_filter_self attrs k

lemma getAttr_removeAttrList_other (attrs : List (String × String)) {k k2 : String}
    (h : k2 ≠ k) :
    getAttr (removeAttrList attrs k) k2 = getAttr attrs k2 := by
  unfold removeAttrList
  exact getAttr_filter_other attrs h

/-! ### Structural lemmas about the foundation methods -/

lemma updateHelptext_rootClasses (s : TFState) (v : Bool) :
    (updateHelptext_ s v).rootClasses = s.rootClasses := by
  simp only [updateHelptext_, hideHelptext_]
  split <;> split <;> rfl

lemma updateHelptext_labelCalls (s : TFState) (v : Bool) :
    (updateHelptext_ s v).labelCalls = s.labelCalls := by
  simp only [updateHelptext_, hideHelptext_]
  split <;> split <;> rfl

lemma updateHelptext_useCustom (s : TFState) (v : Bool) :
    (updateHelptext_ s v).useCustomValidityChecking_ = s.useCustomValidityChecking_ := by
  simp only [updateHelptext_, hideHelptext_]
  split <;> split <;> rfl

lemma changeValidity_rootClasses (s : TFState) (v : Bool) :
    (changeValidity_ s v).rootClasses =
      if v then removeClassList s.rootClasses INVALID
      else addClassList s.rootClasses INVALID := by
  simp only [changeValidity_, updateHelptext_rootClasses]
  split <;> rfl

lemma changeValidity_labelCalls (s : TFState) (v : Bool) :
    (changeValidity_ s v).labelCalls =
      s.labelCalls ++ [LabelCall.changeValidityCall v] := by
  simp only [changeValidity_, updateHelptext_labelCalls]
  split <;> rfl

lemma changeValidity_useCustom (s : TFState) (v : Bool) :
    (changeValidity_ s v).useCustomValidityChecking_ = s.useCustomValidityChecking_ := by
  simp only [changeValidity_, updateHelptext_useCustom]
  split <;> rfl

lemma setValid_useCustom (s : TFState) (v : Bool) :
    (setValid s v).useCustomValidityChecking_ = true := by
  simp only [setValid, changeValidity_useCustom]

lemma invalid_mem_setValid_false (s : TFState) :
    INVALID ∈ (setValid s false).rootClasses := by
  simp only [setValid, changeValidity_rootClasses]
  simp only [Bool.false_eq_true, if_false]
  exact mem_addClassList_self _ _

lemma step_useCustom_mono (s : TFState) (e : Ev)
    (h : s.useCustomValidityChecking_ = true) :
    (step s e).useCustomValidityChecking_ = true := by
  cases e with
  | focus => exact h
  | blur =>
      simp only [step, deactivateFocus_, h]
      simp only [Bool.not_true, Bool.false_eq_true, if_false]
  | transitionEndEvt p =>
      simp only [step, transitionEnd_]
      split <;> exact h
  | interact e =>
      simp only [step, handleTextFieldInteraction_]
      split
      · exact h
      · split <;> exact h
  | setValidCall b => exact setValid_useCustom s b
  | setDisabledCall b =>
      simp only [step, setDisabled]
      split <;> exact h
  | setInputEnv i => exact h

lemma step_invalid_mem (s : TFState) (e : Ev)
    (hflag : s.useCustomValidityChecking_ = true)
    (hne : e.isSetValid = false)
    (hmem : INVALID ∈ s.rootClasses) :
    INVALID ∈ (step s e).rootClasses := by
  cases e with
  | focus =>
      exact mem_addClassList_of_mem _ hmem
  | blur =>
      simp only [step, deactivateFocus_, hflag]
      simp only [Bool.not_true, Bool.false_eq_true, if_false]
      exact mem_removeClassList hmem (by decide)
  | transitionEndEvt p =>
      simp only [step, transitionEnd_]
      split <;> exact hmem
  | interact e =>
      simp only [step, handleTextFieldInteraction_]
      split
      · exact hmem
      · split <;> exact hmem
  | setValidCall b => simp [Ev.isSetValid] at hne
  | setDisabledCall b =>
      simp only [step, setDisabled]
      split
      · exact mem_addClassList_of_mem _ hmem
      · exact mem_removeClassList hmem (by decide)
  | setInputEnv i => exact hmem

lemma runEvents_cons (s : TFState) (e : Ev) (tl : List Ev) :
    runEvents s (e :: tl) = runEvents (step s e) tl := rfl

lemma runEvents_useCustom (evs : List Ev) :
    ∀ s : TFState, s.useCustomValidityChecking_ = true →
      (runEvents s evs).useCustomValidityChecking_ = true := by
  induction evs with
  | nil => exact fun s h => h
  | cons e tl ih =>
      intro s h
      rw [runEvents_cons]
      exact ih _ (step_useCustom_mono s e h)

lemma runEvents_invalid_mem (evs : List Ev) :
    ∀ s : TFState, s.useCustomValidityChecking_ = true →
      INVALID ∈ s.rootClasses →
      (∀ e ∈ evs, e.isSetValid = false) →
      INVALID ∈ (runEvents s evs).rootClasses := by
  induction evs with
  | nil => exact fun s _ hmem _ => hmem
  | cons e tl ih =>
      intro s hflag hmem hno
      rw [runEvents_cons]
      exact ih _ (step_useCustom_mono s e hflag)
        (step_invalid_mem s e hflag (hno e (List.mem_cons_self e tl)) hmem)
        (fun x hx => hno x (List.mem_cons_of_mem e hx))

/-! ### Concrete fixtures used by witnesses and counterexamples -/

/-- A pristine state whose input reports disabled. -/
def disabledState : TFState :=
  { initialState with input := { initialState.input with disabled := true } }

/-- A click event whose target carries the icon class. -/
def iconClickEvt : Evt :=
  { type := "click", targetClasses := [TEXT_FIELD_ICON], key := none, keyCode := none }

/-- A non-empty enabled input whose native checkValidity() returns true. -/
def validInput : InputState :=
  { value := "x", badInput := false, disabled := false, checkValidityResult := true }

/-- An environment step to a natively valid input followed by a blur. -/
def stickyEvs : List Ev := [Ev.setInputEnv validInput, Ev.blur]

/-- Help text carrying the validation-message class while currently hidden
(aria-hidden set to "true"). -/
def helptextCexState : TFState :=
  { initialState with
      helptextClasses := [HELPTEXT_VALIDATION_MSG],
      helptextAttrs := [(ARIA_HIDDEN, "true")] }

/-- Reading aria-hidden through a role write leaves it unchanged. -/
lemma getAttr_set_role_aria (attrs : List (String × String)) (v : String) :
    getAttr (setAttrList attrs ROLE v) ARIA_HIDDEN = getAttr attrs ARIA_HIDDEN :=
  getAttr_setAttrList_other attrs v (by decide)

/-- Reading role through an aria-hidden write leaves it unchanged. -/
lemma getAttr_set_aria_role (attrs : List (String × String)) (v : String) :
    getAttr (setAttrList attrs ARIA_HIDDEN v) ROLE = getAttr attrs ROLE :=
  getAttr_setAttrList_other attrs v (by decide)

/-- Reading aria-hidden through a role removal leaves it unchanged. -/
lemma getAttr_remove_role_aria (attrs : List (String × String)) :
    getAttr (removeAttrList attrs ROLE) ARIA_HIDDEN = getAttr attrs ARIA_HIDDEN :=
  getAttr_removeAttrList_other attrs (by decide)

/-! ### Claim theorems -/

/-- Claim C1 (code bug evaluation): the claim says the transition-end
handler never removes the bottom-line active class while the field is
focused, but isFocused_ is never assigned anywhere in foundation.js, so the
guard not-isFocused_ is always true.  Concretely: after a focus event the
focused class is present and the bottom-line active class is present, yet a
transition-end event with propertyName opacity delivered while still
focused removes the bottom-line active class. -/
theorem transitionEnd_removes_active_while_focused :
    FOCUSED ∈ (runEvents initialState [Ev.focus]).rootClasses ∧
    BOTTOM_LINE_ACTIVE ∈ (runEvents initialState [Ev.focus]).bottomLineClasses ∧
    FOCUSED ∈ (runEvents initialState
      [Ev.focus, Ev.transitionEndEvt "opacity"]).rootClasses ∧
    BOTTOM_LINE_ACTIVE ∉ (runEvents initialState
      [Ev.focus, Ev.transitionEndEvt "opacity"]).bottomLineClasses := by
  decide

/-- Claim C2: while the input reports disabled, handleTextFieldInteraction_
is a no-op for every event: the resulting state is unchanged, so
receivedUserInput_ is not set, no class or attribute changes, and
notifyIconAction is not called. -/
theorem handleTextFieldInteraction_disabled_noop (s : TFState) (evt : Evt)
    (h : s.input.disabled = true) :
    handleTextFieldInteraction_ s evt = s := by
  simp [handleTextFieldInteraction_, h]

/-- Witness for claim C2 at a concrete disabled state and icon click. -/
theorem handleTextFieldInteraction_disabled_noop_w :
    disabledState.input.disabled = true ∧
    handleTextFieldInteraction_ disabledState iconClickEvt = disabledState :=
  ⟨rfl, handleTextFieldInteraction_disabled_noop disabledState iconClickEvt rfl⟩

/-- Claim C3 (code bug evaluation): the claim says destroy() after init()
leaves no registered handler.  In the component adapter built by
getDefaultFoundation, deregisterInputInteractionHandler is wired to
this.input_.listen (index.js line 141), which attaches rather than
detaches, so after init() followed by destroy() the input focus, blur and
pressed handlers are still attached, while the text-field click and
keydown handlers were correctly removed. -/
theorem destroy_residual_input_handlers :
    ((initCalls "" ++ destroyCalls).foldl componentApply emptyDom).inputListeners =
      [(FOCUS_EVENT, Handler.inputFocusHandler),
       (BLUR_EVENT, Handler.inputBlurHandler),
       (PRESSED_EVENT, Handler.setPointerXOffset)] ∧
    ((initCalls "" ++ destroyCalls).foldl componentApply emptyDom).rootListeners = [] ∧
    UPGRADED ∉ ((initCalls "" ++ destroyCalls).foldl componentApply emptyDom).rootClasses := by
  decide

/-- Claim C4: after any setValid(b) call, useCustomValidityChecking_ is
true after every further event sequence; and after setValid(false) the
invalid class is present and stays present across any sequence of focus,
blur, transition-end, interaction, setDisabled and input-environment steps
(in particular blurs on which the native checkValidity() returns true),
because deactivateFocus_ skips the native validity recomputation. -/
theorem setValid_sticky (s : TFState) (b : Bool) (evs : List Ev)
    (hno : ∀ e ∈ evs, e.isSetValid = false) :
    (runEvents (setValid s b) evs).useCustomValidityChecking_ = true ∧
    (b = false → INVALID ∈ (runEvents (setValid s b) evs).rootClasses) := by
  constructor
  · exact runEvents_useCustom evs _ (setValid_useCustom s b)
  · intro hb
    subst hb
    exact runEvents_invalid_mem evs _ (setValid_useCustom s false)
      (invalid_mem_setValid_false s) hno

/-- Witness for claim C4: setValid(false) then an environment step to a
natively valid input and a blur; the invalid class is still present. -/
theorem setValid_sticky_w :
    (∀ e ∈ stickyEvs, e.isSetValid = false) ∧
    ((runEvents (setValid initialState false) stickyEvs).useCustomValidityChecking_ = true ∧
     (false = false →
       INVALID ∈ (runEvents (setValid initialState false) stickyEvs).rootClasses)) :=
  ⟨by decide, setValid_sticky initialState false stickyEvs (by decide)⟩

/-- Claim C5 counterexample: with help text carrying the validation-message
class and currently hidden (aria-hidden "true"), updateHelptext_ with
isValid false sets role to alert but does NOT clear the aria-hidden
marker, which the claim asserts it does. -/
theorem updateHelptext_no_unhide_cex :
    helptextCexState.helptextClasses.contains HELPTEXT_VALIDATION_MSG = true ∧
    getAttr helptextCexState.helptextAttrs ARIA_HIDDEN = some "true" ∧
    getAttr (updateHelptext_ helptextCexState false).helptextAttrs ROLE = some "alert" ∧
    getAttr (updateHelptext_ helptextCexState false).helptextAttrs ARIA_HIDDEN = some "true" := by
  decide

/-- Claim C5 as amended: updateHelptext_ sets role to alert when the help
text carries the validation-message class and isValid is false, leaving the
aria-hidden marker unchanged (it does not clear it); otherwise it removes
the role attribute; and it sets aria-hidden to "true" exactly when the help
text is neither persistent nor a validation message needing display,
leaving aria-hidden unchanged otherwise. -/
theorem updateHelptext_attrs (s : TFState) (b : Bool) :
    getAttr (updateHelptext_ s b).helptextAttrs ROLE =
      (if s.helptextClasses.contains HELPTEXT_VALIDATION_MSG && ! b
       then some "alert" else none) ∧
    getAttr (updateHelptext_ s b).helptextAttrs ARIA_HIDDEN =
      (if ! s.helptextClasses.contains HELPTEXT_PERSISTENT &&
          ! (s.helptextClasses.contains HELPTEXT_VALIDATION_MSG && ! b)
       then some "true" else getAttr s.helptextAttrs ARIA_HIDDEN) := by
  simp only [updateHelptext_, hideHelptext_]
  cases hP : s.helptextClasses.contains HELPTEXT_PERSISTENT <;>
    cases hV : s.helptextClasses.contains HELPTEXT_VALIDATION_MSG <;>
      cases b <;>
        simp [hP, hV, getAttr_setAttrList_self, getAttr_removeAttrList_self,
          getAttr_set_role_aria, getAttr_set_aria_role, getAttr_remove_role_aria]

/-- Claim C8: deactivateFocus_ removes the focused class and calls the
label deactivateFocus exactly once with hasValidInput, computed as (value
is empty) and (not bad input); when custom validity checking is off it
additionally reports the native validity to the label. -/
theorem deactivateFocus_label_and_class (s : TFState) :
    FOCUSED ∉ (deactivateFocus_ s).rootClasses ∧
    (deactivateFocus_ s).labelCalls =
      s.labelCalls
        ++ [LabelCall.deactivateFocusCall ((s.input.value == "") && (! s.input.badInput))]
        ++ (if s.useCustomValidityChecking_ then []
            else [LabelCall.changeValidityCall s.input.checkValidityResult]) := by
  cases hb : s.useCustomValidityChecking_
  · simp only [deactivateFocus_, hb, Bool.not_false, if_true]
    constructor
    · rw [changeValidity_rootClasses]
      split
      · exact not_mem_removeClassList_of _ (not_mem_removeClassList_self _ _)
      · exact not_mem_addClassList (not_mem_removeClassList_self _ _) (by decide)
    · rw [changeValidity_labelCalls]
      simp
  · simp only [deactivateFocus_, hb, Bool.not_true, Bool.false_eq_true, if_false]
    constructor
    · exact not_mem_removeClassList_self _ _
    · simp

/-- Claim C9: setDisabled(true) then setDisabled(false) round-trips: first
the disabled class is present and the icon tabindex is "-1", afterwards the
disabled class is absent and the icon tabindex is "0", and the input
controller received setDisabled(true) then setDisabled(false). -/
theorem setDisabled_roundtrip (s : TFState) :
    DISABLED ∈ (setDisabled s true).rootClasses ∧
    getAttr (setDisabled s true).iconAttrs "tabindex" = some "-1" ∧
    (setDisabled s true).inputSetDisabledCalls = s.inputSetDisabledCalls ++ [true] ∧
    (setDisabled s true).input.disabled = true ∧
    DISABLED ∉ (setDisabled (setDisabled s true) false).rootClasses ∧
    getAttr (setDisabled (setDisabled s true) false).iconAttrs "tabindex" = some "0" ∧
    (setDisabled (setDisabled s true) false).inputSetDisabledCalls =
      s.inputSetDisabledCalls ++ [true, false] ∧
    (setDisabled (setDisabled s true) false).input.disabled = false := by
  refine ⟨?_, ?_, ?_, ?_, ?_, ?_, ?_, ?_⟩
  · simp [setDisabled, mem_addClassList_self]
  · simp [setDisabled, getAttr_setAttrList_self]
  · simp [setDisabled]
  · simp [setDisabled]
  · simp [setDisabled]
    exact not_mem_removeClassList_self _ _
  · simp [setDisabled, getAttr_setAttrList_self]
  · simp [setDisabled]
  · simp [setDisabled]

/-- Claim C7: during init() the label floatLabel call is emitted exactly
once iff the input getValue() result is truthy (a non-empty string), and
zero times when it is empty. -/
theorem init_floatLabel_iff_value (v : String) :
    (initCalls v).count AdapterCall.floatLabel = if v = "" then 0 else 1 := by
  by_cases h : v = ""
  · subst h
    decide
  · simp only [initCalls, if_neg h]
    decide

/-- Claim C10: the default adapter omits registerInputInteractionHandler
and deregisterInputInteractionHandler from its member set and its
getInputFoundation returns undefined, so init() against the default adapter
raises a TypeError at getInputFoundation().getValue(); and even with a
working input sub-foundation supplied, the handler-registration call fails
at first use because the capability is missing. -/
theorem defaultAdapter_init_raises :
    "registerInputInteractionHandler" ∉ defaultAdapterKeys ∧
    "deregisterInputInteractionHandler" ∉ defaultAdapterKeys ∧
    defaultGetInputFoundation = none ∧
    initRun defaultAdapterKeys defaultGetInputFoundation false =
      Except.error "TypeError: cannot read getValue of undefined" ∧
    initRun defaultAdapterKeys
        (some { value := "", badInput := false, disabled := false,
                checkValidityResult := true }) false =
      Except.error "TypeError: registerInputInteractionHandler is not a function" :=
  ⟨by decide, by decide, rfl, rfl, rfl⟩

/-- Claim C6: with the input enabled, handleTextFieldInteraction_ calls
notifyIconAction exactly once iff the event target carries the icon class
and the event type is click, or the key is Enter, or the keyCode is 13;
otherwise the notification count is unchanged. -/
theorem handleTextFieldInteraction_notify (s : TFState) (evt : Evt)
    (h : s.input.disabled = false) :
    (handleTextFieldInteraction_ s evt).notifyIconActionCount =
      s.notifyIconActionCount +
        (if evt.targetClasses.contains TEXT_FIELD_ICON &&
            ((evt.type == "click") || (evt.key == some "Enter") || (evt.keyCode == some 13))
         then 1 else 0) := by
  simp only [handleTextFieldInteraction_, h, Bool.false_eq_true, if_false]
  split <;> rename_i hc <;> simp [hc]

/-- Witness for claim C6 at a concrete enabled state and icon click. -/
theorem handleTextFieldInteraction_notify_w :
    initialState.input.disabled = false ∧
    (handleTextFieldInteraction_ initialState iconClickEvt).notifyIconActionCount =
      initialState.notifyIconActionCount +
        (if iconClickEvt.targetClasses.contains TEXT_FIELD_ICON &&
            ((iconClickEvt.type == "click") || (iconClickEvt.key == some "Enter") ||
             (iconClickEvt.keyCode == some 13))
         then 1 else 0) ∧
    (handleTextFieldInteraction_ initialState iconClickEvt).notifyIconActionCount = 1 :=
  ⟨rfl, handleTextFieldInteraction_notify initialState iconClickEvt rfl, by decide⟩

end MDCTextfield
